import Mathlib

/-!
Shallow embedding of the ideafinder discovery backend.

The definitions below are translated from the TypeScript sources of the
repository:
- `src/backend/src/lib/analyzers` (analyzer types, `AnalyzerRegistry.combineResults`,
  `RedditAnalyzer.analyze`),
- `src/backend/src/modules/discovery` (`InMemoryDiscoveryRepo`,
  `DiscoveryServiceImpl`, the SSE streaming route `streamRealData`),
- `src/backend/src/modules/discovery/services/discovery.validators.ts`
  (the zod `DiscoveryConfigSchema`).

JavaScript numbers are modelled as `Rat` (confidence, popularity) or as
`Int`/`Nat` where the code only ever holds integers; open `Record<string, any>`
maps are modelled as insertion-ordered association lists with string values;
JS `Map` is modelled as an insertion-ordered association list where `set`
overwrites in place; fallible code returns `Except`/`Option`.
-/

set_option linter.unusedVariables false
set_option allowUnsafeReducibility true
attribute [semireducible] Rat.add Rat.mul Rat.inv Rat.div Rat.sub

/-- First value bound to key `k` in an association list.  Models JS object
field access and `Map.get`. -/
def alookup {α : Type} (k : String) : List (String × α) → Option α
  | [] => none
  | (k', v) :: rest => if k' = k then some v else alookup k rest

/-- `Map.set`/object field assignment: overwrite in place if the key is
present (a JS `Map` keeps the original insertion position), else append. -/
def aset {α : Type} (k : String) (v : α) : List (String × α) → List (String × α)
  | [] => [(k, v)]
  | (k', v') :: rest => if k' = k then (k, v) :: rest else (k', v') :: aset k v rest

/-- JS `a || b` for an optional string `a`: `undefined` and the empty string
are falsy. -/
def jsOrStr (a : Option String) (b : String) : String :=
  match a with
  | some s => if s = "" then b else s
  | none => b

/-- JS `a || b` for an optional number `a`: `undefined` and `0` are falsy. -/
def jsOrRat (a : Option Rat) (b : Rat) : Rat :=
  match a with
  | some x => if x = 0 then b else x
  | none => b

/-- JS object spread `{...a, ...b}`: keys of `a` in their order (values
overridden by `b` where present), then the keys of `b` not present in `a`,
in the order of `b`. -/
def jsSpread (a b : List (String × String)) : List (String × String) :=
  a.map (fun p => match alookup p.1 b with | some v => (p.1, v) | none => p)
    ++ b.filter (fun p => (alookup p.1 a).isNone)

/-- Node type union `'niche' | 'sub-niche' | 'topic'` from the analyzer and
discovery type declarations. -/
inductive NodeType
  | niche
  | subNiche
  | topic
deriving DecidableEq, Repr

/-- Edge relationship union `'contains' | 'related-to' | 'derived-from'`. -/
inductive EdgeRel
  | contains
  | relatedTo
  | derivedFrom
deriving DecidableEq, Repr

/-- String form of an `EdgeRel`, as it appears in the TypeScript literals
(used in the edge dedup key). -/
def EdgeRel.str : EdgeRel → String
  | .contains => "contains"
  | .relatedTo => "related-to"
  | .derivedFrom => "derived-from"

/-- `AnalyzerNode` from `lib/analyzers/types.ts`. -/
structure AnalyzerNode where
  id : String
  label : String
  level : Nat
  type : NodeType
  source : String
  data : Option (List (String × String))
  confidence : Rat
  popularity : Rat
deriving DecidableEq, Repr

/-- `AnalyzerEdge` from `lib/analyzers/types.ts`. -/
structure AnalyzerEdge where
  id : String
  source : String
  target : String
  relationship : EdgeRel
  confidence : Rat
  source_platform : String
deriving DecidableEq, Repr

/-- `AnalyzerMetadata` from `lib/analyzers/types.ts` (the fields the merge
code reads). -/
structure AnalyzerMetadata where
  platform : String
  processingTime : Rat
  apiCalls : Nat
  errors : List String
deriving DecidableEq, Repr

/-- `AnalyzerResult` from `lib/analyzers/types.ts`. -/
structure AnalyzerResult where
  nodes : List AnalyzerNode
  edges : List AnalyzerEdge
  metadata : AnalyzerMetadata
deriving DecidableEq, Repr

/-- `CombinedAnalyzerResult` (nodes, edges and the combined metadata fields
computed by `combineResults`). -/
structure CombinedAnalyzerResult where
  nodes : List AnalyzerNode
  edges : List AnalyzerEdge
  analyzerMetadata : List AnalyzerMetadata
  totalProcessingTime : Rat
  totalApiCalls : Nat
  platformsUsed : List String
deriving DecidableEq, Repr

/-- JS `String.prototype.toLowerCase` restricted to ASCII (all labels the
analyzers produce are ASCII). -/
def jsToLower (s : String) : String := String.mk (s.data.map Char.toLower)

/-- Auxiliary for `jsTrim`: drop leading whitespace characters. -/
def dropLeadingWs : List Char → List Char
  | [] => []
  | c :: rest => if c.isWhitespace then dropLeadingWs rest else c :: rest

/-- JS `String.prototype.trim`: drop whitespace at both ends. -/
def jsTrim (s : String) : String :=
  String.mk ((dropLeadingWs (dropLeadingWs s.data).reverse).reverse)

/-- Node dedup identity key from `AnalyzerRegistry.combineResults`:
`node.label.toLowerCase().trim() + "-" + node.level`. -/
def nodeKey (n : AnalyzerNode) : String :=
  jsTrim (jsToLower n.label) ++ "-" ++ toString n.level

/-- The collision branch of the node dedup loop in
`AnalyzerRegistry.combineResults`: keep the strictly higher confidence (and
its source), always sum popularity, and shallow-merge the `data` maps -
but only when BOTH nodes carry a `data` object (`if (node.data && existing.data)`). -/
def mergeNodes (existing node : AnalyzerNode) : AnalyzerNode :=
  let e1 := if node.confidence > existing.confidence then
      { existing with confidence := node.confidence, source := node.source }
    else existing
  let e2 := { e1 with popularity := e1.popularity + node.popularity }
  match node.data, e2.data with
  | some nd, some ed => { e2 with data := some (jsSpread ed nd) }
  | _, _ => e2

/-- One step of the `allNodes.forEach` dedup loop over the insertion-ordered
node map. -/
def insertNode (m : List (String × AnalyzerNode)) (node : AnalyzerNode) :
    List (String × AnalyzerNode) :=
  let key := nodeKey node
  match alookup key m with
  | none => m ++ [(key, node)]
  | some existing => aset key (mergeNodes existing node) m

/-- Edge dedup identity key: `edge.source + "-" + edge.target + "-" + edge.relationship`. -/
def edgeKey (e : AnalyzerEdge) : String :=
  e.source ++ "-" ++ e.target ++ "-" ++ e.relationship.str

/-- One step of the `allEdges.forEach` dedup loop: keep the edge with the
strictly higher confidence. -/
def insertEdge (m : List (String × AnalyzerEdge)) (edge : AnalyzerEdge) :
    List (String × AnalyzerEdge) :=
  let key := edgeKey edge
  match alookup key m with
  | none => m ++ [(key, edge)]
  | some existing =>
    if edge.confidence > existing.confidence then aset key edge m else m

/-- The new sequential id `"node-" + node.level + "-" + index` assigned after
dedup (the index is the position in the full deduplicated list). -/
def newNodeId (n : AnalyzerNode) (index : Nat) : String :=
  "node-" ++ toString n.level ++ "-" ++ toString index

/-- The id remap table built by the `deduplicatedNodes.forEach`: it maps each
SURVIVING node's original id to its new sequential id. -/
def buildNodeIdMap (ns : List AnalyzerNode) : List (String × String) :=
  ns.enum.foldl (fun m p => aset p.2.id (newNodeId p.2 p.1) m) []

/-- The surviving nodes with their new sequential ids. -/
def renameNodes (ns : List AnalyzerNode) : List AnalyzerNode :=
  ns.enum.map (fun p => { p.2 with id := newNodeId p.2 p.1 })

/-- The edge rewrite after dedup: `nodeIdMap.get(edge.source) || edge.source`
(and likewise for the target), plus the fresh `"edge-" + index` id. -/
def remapEdges (idMap : List (String × String)) (es : List AnalyzerEdge) :
    List AnalyzerEdge :=
  es.enum.map (fun p =>
    { p.2 with
      id := "edge-" ++ toString p.1
      source := jsOrStr (alookup p.2.source idMap) p.2.source
      target := jsOrStr (alookup p.2.target idMap) p.2.target })

/-- `AnalyzerRegistry.combineResults`: flatten all analyzer results,
deduplicate nodes by `nodeKey` and edges by `edgeKey`, assign new sequential
node ids, rewrite edge endpoints through the id remap table, and combine
metadata. -/
def combineResults (results : List AnalyzerResult) : CombinedAnalyzerResult :=
  let allNodes := results.flatMap (·.nodes)
  let allEdges := results.flatMap (·.edges)
  let nodeMap := allNodes.foldl insertNode []
  let edgeMap := allEdges.foldl insertEdge []
  let deduplicatedNodes := nodeMap.map (·.2)
  let nodeIdMap := buildNodeIdMap deduplicatedNodes
  { nodes := renameNodes deduplicatedNodes
    edges := remapEdges nodeIdMap (edgeMap.map (·.2))
    analyzerMetadata := results.map (·.metadata)
    totalProcessingTime := (results.map (·.metadata.processingTime)).sum
    totalApiCalls := (results.map (·.metadata.apiCalls)).sum
    platformsUsed := results.map (·.metadata.platform) }

example :
    jsSpread [("a", "1"), ("b", "2")] [("b", "9"), ("c", "3")]
      = [("a", "1"), ("b", "9"), ("c", "3")] := by decide

example :
    mergeNodes
      ⟨"a", "Entrepreneur", 1, .subNiche, "reddit", some [], mkRat 9 10, 100⟩
      ⟨"b", "entrepreneur", 1, .subNiche, "facebook", some [], mkRat 6 10, 50⟩
      = ⟨"a", "Entrepreneur", 1, .subNiche, "reddit", some [], mkRat 9 10, 150⟩ := by decide

/-- `DiscoveryConfig` from `modules/discovery/types.ts` (numbers modelled as
`Int`; the zod schema accepts any JS number in range). -/
structure DiscoveryConfig where
  niche : String
  maxLevels : Int
  maxNodesPerLevel : Int
  sources : List String
deriving DecidableEq, Repr

/-- Job status union from `modules/discovery/types.ts`. -/
inductive JobStatus
  | starting
  | discovering
  | complete
  | jobError
  | cancelled
deriving DecidableEq, Repr

/-- Sub-analysis snapshot from `modules/discovery/types.ts`. -/
structure SubAnalysis where
  totalItems : Nat
  completedItems : Nat
  currentItem : Option String
  currentStep : Option String
  currentItemProgress : Option Rat
  estimatedTimeRemaining : Option Rat
deriving DecidableEq, Repr

/-- `DiscoveryNode` from `modules/discovery/types.ts`. -/
structure DiscoveryNode where
  id : String
  label : String
  level : Nat
  type : NodeType
  source : String
  confidence : Rat
  popularity : Rat
  data : Option (List (String × String))
  metadata : Option (List (String × String))
deriving DecidableEq, Repr

/-- `DiscoveryEdge` from `modules/discovery/types.ts`. -/
structure DiscoveryEdge where
  id : String
  source : String
  target : String
  relationship : EdgeRel
  weight : Option Rat
deriving DecidableEq, Repr

/-- `DiscoveryGraph` from `modules/discovery/types.ts`. -/
structure DiscoveryGraph where
  nodes : List DiscoveryNode
  edges : List DiscoveryEdge
deriving DecidableEq, Repr

/-- `DiscoveryJob` from `modules/discovery/types.ts`.  Timestamps are a
logical clock (`Nat`); the `error` field keeps the captured message. -/
structure DiscoveryJob where
  id : String
  config : DiscoveryConfig
  status : JobStatus
  currentLevel : Nat
  totalNodes : Nat
  totalEdges : Nat
  createdAt : Nat
  updatedAt : Nat
  error : Option String
  subAnalysis : Option SubAnalysis
deriving DecidableEq, Repr

/-- The two private maps of `InMemoryDiscoveryRepo` (`jobs`, `jobGraphs`),
modelled as insertion-ordered association lists. -/
structure RepoState where
  jobs : List (String × DiscoveryJob)
  jobGraphs : List (String × DiscoveryGraph)
deriving DecidableEq, Repr

/-- The repo before any operation. -/
def emptyRepo : RepoState := ⟨[], []⟩

/-- `InMemoryDiscoveryRepo.createJob`: fresh job record with status
`starting`, zero counters and an empty graph stored under the same id
(`crypto.randomUUID()` is modelled by the `newId` argument, `new Date()` by
`now`). -/
def createJob (r : RepoState) (now : Nat) (newId : String) (cfg : DiscoveryConfig) :
    RepoState × DiscoveryJob :=
  let job : DiscoveryJob :=
    { id := newId, config := cfg, status := .starting, currentLevel := 0,
      totalNodes := 0, totalEdges := 0, createdAt := now, updatedAt := now,
      error := none, subAnalysis := none }
  ({ jobs := aset newId job r.jobs
     jobGraphs := aset newId ⟨[], []⟩ r.jobGraphs }, job)

/-- `InMemoryDiscoveryRepo.getJob`. -/
def getJob (r : RepoState) (jobId : String) : Option DiscoveryJob :=
  alookup jobId r.jobs

/-- `InMemoryDiscoveryRepo.updateJobStatus`: unconditionally overwrites the
status of an existing job; `if (error) job.error = error` keeps the previous
message when the argument is absent (or the empty string, which is falsy). -/
def updateJobStatus (r : RepoState) (now : Nat) (jobId : String)
    (status : JobStatus) (err : Option String) : RepoState :=
  match alookup jobId r.jobs with
  | none => r
  | some job =>
    let job' := { job with
      status := status
      updatedAt := now
      error := match err with
        | some m => if m = "" then job.error else some m
        | none => job.error }
    { r with jobs := aset jobId job' r.jobs }

/-- `InMemoryDiscoveryRepo.updateJobCurrentLevel`. -/
def updateJobCurrentLevel (r : RepoState) (now : Nat) (jobId : String)
    (level : Nat) : RepoState :=
  match alookup jobId r.jobs with
  | none => r
  | some job =>
    { r with jobs := aset jobId { job with currentLevel := level, updatedAt := now } r.jobs }

/-- `InMemoryDiscoveryRepo.updateJobSubAnalysis`. -/
def updateJobSubAnalysis (r : RepoState) (now : Nat) (jobId : String)
    (sa : SubAnalysis) : RepoState :=
  match alookup jobId r.jobs with
  | none => r
  | some job =>
    { r with jobs := aset jobId { job with subAnalysis := some sa, updatedAt := now } r.jobs }

/-- `InMemoryDiscoveryRepo.addNode`: append the node to the job's graph and
refresh the job's `totalNodes` counter from the graph length. -/
def addNode (r : RepoState) (now : Nat) (jobId : String) (node : DiscoveryNode) :
    RepoState :=
  match alookup jobId r.jobGraphs with
  | none => r
  | some g =>
    let g' := { g with nodes := g.nodes ++ [node] }
    let jobs' := match alookup jobId r.jobs with
      | none => r.jobs
      | some job => aset jobId { job with totalNodes := g'.nodes.length, updatedAt := now } r.jobs
    { jobs := jobs', jobGraphs := aset jobId g' r.jobGraphs }

/-- `InMemoryDiscoveryRepo.addEdge`: append the edge to the job's graph and
refresh the job's `totalEdges` counter from the graph length. -/
def addEdge (r : RepoState) (now : Nat) (jobId : String) (edge : DiscoveryEdge) :
    RepoState :=
  match alookup jobId r.jobGraphs with
  | none => r
  | some g =>
    let g' := { g with edges := g.edges ++ [edge] }
    let jobs' := match alookup jobId r.jobs with
      | none => r.jobs
      | some job => aset jobId { job with totalEdges := g'.edges.length, updatedAt := now } r.jobs
    { jobs := jobs', jobGraphs := aset jobId g' r.jobGraphs }

/-- `InMemoryDiscoveryRepo.getJobGraph` (defaults to the empty graph). -/
def getJobGraph (r : RepoState) (jobId : String) : DiscoveryGraph :=
  (alookup jobId r.jobGraphs).getD ⟨[], []⟩

/-- One call to the `InMemoryDiscoveryRepo` mutation interface. -/
inductive RepoOp
  | createJob (now : Nat) (id : String) (cfg : DiscoveryConfig)
  | updateJobStatus (now : Nat) (id : String) (status : JobStatus) (err : Option String)
  | updateJobCurrentLevel (now : Nat) (id : String) (level : Nat)
  | updateJobSubAnalysis (now : Nat) (id : String) (sa : SubAnalysis)
  | addNode (now : Nat) (id : String) (node : DiscoveryNode)
  | addEdge (now : Nat) (id : String) (edge : DiscoveryEdge)
deriving DecidableEq, Repr

/-- Apply one repo operation to the repo state. -/
def applyRepoOp (r : RepoState) : RepoOp → RepoState
  | .createJob now id cfg => (createJob r now id cfg).1
  | .updateJobStatus now id st err => updateJobStatus r now id st err
  | .updateJobCurrentLevel now id lvl => updateJobCurrentLevel r now id lvl
  | .updateJobSubAnalysis now id sa => updateJobSubAnalysis r now id sa
  | .addNode now id n => addNode r now id n
  | .addEdge now id e => addEdge r now id e

/-- Apply a sequence of repo operations, oldest first. -/
def applyRepoOps (r : RepoState) (ops : List RepoOp) : RepoState :=
  ops.foldl applyRepoOp r

/-- The counter invariant of the in-memory repo: every stored job's
`totalNodes`/`totalEdges` equal the lengths of its stored graph's node and
edge lists. -/
def repoCountsOk (r : RepoState) : Prop :=
  ∀ id job, alookup id r.jobs = some job →
    job.totalNodes = (getJobGraph r id).nodes.length ∧
    job.totalEdges = (getJobGraph r id).edges.length

theorem alookup_aset_self {α : Type} (k : String) (v : α) (m : List (String × α)) :
    alookup k (aset k v m) = some v := by
  induction m with
  | nil => simp [aset, alookup]
  | cons p rest ih =>
    obtain ⟨k', v'⟩ := p
    by_cases h : k' = k
    · simp [aset, alookup, h]
    · simp [aset, alookup, h, ih]

theorem alookup_aset_ne {α : Type} (k k' : String) (v : α) (m : List (String × α))
    (h : k' ≠ k) : alookup k (aset k' v m) = alookup k m := by
  induction m with
  | nil => simp [aset, alookup, h]
  | cons p rest ih =>
    obtain ⟨k₀, v₀⟩ := p
    by_cases h₀ : k₀ = k'
    · simp [aset, alookup, h₀, h]
    · by_cases h₁ : k₀ = k
      · simp [aset, alookup, h₀, h₁, Ne.symm h]
      · simp [aset, alookup, h₀, h₁, ih]

theorem repoCountsOk_empty : repoCountsOk emptyRepo := by
  intro id job h
  simp [emptyRepo, alookup] at h

theorem repoCountsOk_applyRepoOp (r : RepoState) (op : RepoOp)
    (h : repoCountsOk r) : repoCountsOk (applyRepoOp r op) := by
  cases op with
  | createJob now newId cfg =>
    intro id job hj
    by_cases hid : id = newId
    · subst hid
      simp [applyRepoOp, createJob, alookup_aset_self] at hj
      subst hj
      simp [applyRepoOp, createJob, getJobGraph, alookup_aset_self]
    · have hne : newId ≠ id := fun hc => hid hc.symm
      simp [applyRepoOp, createJob, alookup_aset_ne _ _ _ _ hne] at hj
      have := h id job hj
      simpa [applyRepoOp, createJob, getJobGraph, alookup_aset_ne _ _ _ _ hne] using this
  | updateJobStatus now jobId st err =>
    intro id job hj
    cases h₀ : alookup jobId r.jobs with
    | none =>
      simp [applyRepoOp, updateJobStatus, h₀] at hj
      simpa [applyRepoOp, updateJobStatus, h₀, getJobGraph] using h id job hj
    | some job₀ =>
      by_cases hid : id = jobId
      · subst hid
        simp [applyRepoOp, updateJobStatus, h₀, alookup_aset_self] at hj
        have := h id job₀ h₀
        simp [applyRepoOp, updateJobStatus, h₀, getJobGraph, ← hj]
        exact this
      · have hne : jobId ≠ id := fun hc => hid hc.symm
        simp [applyRepoOp, updateJobStatus, h₀, alookup_aset_ne _ _ _ _ hne] at hj
        have := h id job hj
        simpa [applyRepoOp, updateJobStatus, h₀, getJobGraph] using this
  | updateJobCurrentLevel now jobId lvl =>
    intro id job hj
    cases h₀ : alookup jobId r.jobs with
    | none =>
      simp [applyRepoOp, updateJobCurrentLevel, h₀] at hj
      simpa [applyRepoOp, updateJobCurrentLevel, h₀, getJobGraph] using h id job hj
    | some job₀ =>
      by_cases hid : id = jobId
      · subst hid
        simp [applyRepoOp, updateJobCurrentLevel, h₀, alookup_aset_self] at hj
        have := h id job₀ h₀
        simp [applyRepoOp, updateJobCurrentLevel, h₀, getJobGraph, ← hj]
        exact this
      · have hne : jobId ≠ id := fun hc => hid hc.symm
        simp [applyRepoOp, updateJobCurrentLevel, h₀, alookup_aset_ne _ _ _ _ hne] at hj
        have := h id job hj
        simpa [applyRepoOp, updateJobCurrentLevel, h₀, getJobGraph] using this
  | updateJobSubAnalysis now jobId sa =>
    intro id job hj
    cases h₀ : alookup jobId r.jobs with
    | none =>
      simp [applyRepoOp, updateJobSubAnalysis, h₀] at hj
      simpa [applyRepoOp, updateJobSubAnalysis, h₀, getJobGraph] using h id job hj
    | some job₀ =>
      by_cases hid : id = jobId
      · subst hid
        simp [applyRepoOp, updateJobSubAnalysis, h₀, alookup_aset_self] at hj
        have := h id job₀ h₀
        simp [applyRepoOp, updateJobSubAnalysis, h₀, getJobGraph, ← hj]
        exact this
      · have hne : jobId ≠ id := fun hc => hid hc.symm
        simp [applyRepoOp, updateJobSubAnalysis, h₀, alookup_aset_ne _ _ _ _ hne] at hj
        have := h id job hj
        simpa [applyRepoOp, updateJobSubAnalysis, h₀, getJobGraph] using this
  | addNode now jobId n =>
    intro id job hj
    cases hg : alookup jobId r.jobGraphs with
    | none =>
      simp [applyRepoOp, addNode, hg] at hj
      have := h id job hj
      simpa [applyRepoOp, addNode, hg, getJobGraph] using this
    | some g =>
      by_cases hid : id = jobId
      · subst hid
        cases h₀ : alookup id r.jobs with
        | none =>
          simp [applyRepoOp, addNode, hg, h₀] at hj
        | some job₀ =>
          simp [applyRepoOp, addNode, hg, h₀, alookup_aset_self] at hj
          have := h id job₀ h₀
          rw [getJobGraph, hg] at this
          simp [applyRepoOp, addNode, hg, h₀, getJobGraph, alookup_aset_self, ← hj]
          exact this.2
      · have hne : jobId ≠ id := fun hc => hid hc.symm
        have hj' : alookup id r.jobs = some job := by
          cases h₀ : alookup jobId r.jobs with
          | none => simpa [applyRepoOp, addNode, hg, h₀] using hj
          | some job₀ =>
            simpa [applyRepoOp, addNode, hg, h₀, alookup_aset_ne _ _ _ _ hne] using hj
        have := h id job hj'
        cases h₀ : alookup jobId r.jobs with
        | none =>
          simpa [applyRepoOp, addNode, hg, h₀, getJobGraph,
            alookup_aset_ne _ _ _ _ hne] using this
        | some job₀ =>
          simpa [applyRepoOp, addNode, hg, h₀, getJobGraph,
            alookup_aset_ne _ _ _ _ hne] using this
  | addEdge now jobId e =>
    intro id job hj
    cases hg : alookup jobId r.jobGraphs with
    | none =>
      simp [applyRepoOp, addEdge, hg] at hj
      have := h id job hj
      simpa [applyRepoOp, addEdge, hg, getJobGraph] using this
    | some g =>
      by_cases hid : id = jobId
      · subst hid
        cases h₀ : alookup id r.jobs with
        | none =>
          simp [applyRepoOp, addEdge, hg, h₀] at hj
        | some job₀ =>
          simp [applyRepoOp, addEdge, hg, h₀, alookup_aset_self] at hj
          have := h id job₀ h₀
          rw [getJobGraph, hg] at this
          simp [applyRepoOp, addEdge, hg, h₀, getJobGraph, alookup_aset_self, ← hj]
          exact this.1
      · have hne : jobId ≠ id := fun hc => hid hc.symm
        have hj' : alookup id r.jobs = some job := by
          cases h₀ : alookup jobId r.jobs with
          | none => simpa [applyRepoOp, addEdge, hg, h₀] using hj
          | some job₀ =>
            simpa [applyRepoOp, addEdge, hg, h₀, alookup_aset_ne _ _ _ _ hne] using hj
        have := h id job hj'
        cases h₀ : alookup jobId r.jobs with
        | none =>
          simpa [applyRepoOp, addEdge, hg, h₀, getJobGraph,
            alookup_aset_ne _ _ _ _ hne] using this
        | some job₀ =>
          simpa [applyRepoOp, addEdge, hg, h₀, getJobGraph,
            alookup_aset_ne _ _ _ _ hne] using this

theorem repoCountsOk_applyRepoOps (r : RepoState) (ops : List RepoOp)
    (h : repoCountsOk r) : repoCountsOk (applyRepoOps r ops) := by
  induction ops generalizing r with
  | nil => exact h
  | cons op ops ih => exact ih (applyRepoOp r op) (repoCountsOk_applyRepoOp r op h)

/-- C10: after any sequence of JobStore operations starting from the empty
repo, every stored job's `totalNodes` and `totalEdges` counters equal the
number of nodes and edges of that job's stored graph (both are 0 with an
empty graph at creation). -/
theorem claimC10_job_counters_match_graph (ops : List RepoOp) (id : String)
    (job : DiscoveryJob)
    (h : alookup id (applyRepoOps emptyRepo ops).jobs = some job) :
    job.totalNodes = (getJobGraph (applyRepoOps emptyRepo ops) id).nodes.length ∧
    job.totalEdges = (getJobGraph (applyRepoOps emptyRepo ops) id).edges.length :=
  repoCountsOk_applyRepoOps emptyRepo ops repoCountsOk_empty id job h

def c10DemoCfg : DiscoveryConfig := ⟨"ai tools", 2, 5, ["reddit"]⟩

def c10DemoNode : DiscoveryNode :=
  ⟨"root", "ai tools", 0, .niche, "reddit", mkRat 8 10, 0, none, some []⟩

def c10DemoEdge : DiscoveryEdge := ⟨"edge-0", "root", "node-1-0", .contains, none⟩

def c10DemoOps : List RepoOp :=
  [.createJob 0 "job-1" c10DemoCfg, .addNode 1 "job-1" c10DemoNode,
   .addEdge 2 "job-1" c10DemoEdge, .updateJobStatus 3 "job-1" .discovering none]

def c10DemoJob : DiscoveryJob :=
  ⟨"job-1", c10DemoCfg, .discovering, 0, 1, 1, 0, 3, none, none⟩

theorem claimC10_job_counters_match_graph_witness :
    alookup "job-1" (applyRepoOps emptyRepo c10DemoOps).jobs = some c10DemoJob ∧
    (c10DemoJob.totalNodes
        = (getJobGraph (applyRepoOps emptyRepo c10DemoOps) "job-1").nodes.length ∧
      c10DemoJob.totalEdges
        = (getJobGraph (applyRepoOps emptyRepo c10DemoOps) "job-1").edges.length) :=
  ⟨by decide, claimC10_job_counters_match_graph c10DemoOps "job-1" c10DemoJob (by decide)⟩

theorem alookup_append {α : Type} (k : String) (l₁ l₂ : List (String × α)) :
    alookup k (l₁ ++ l₂) = match alookup k l₁ with
      | some v => some v
      | none => alookup k l₂ := by
  induction l₁ with
  | nil => simp [alookup]
  | cons p rest ih =>
    obtain ⟨k₀, v₀⟩ := p
    by_cases h : k₀ = k <;> simp [alookup, h, ih]

theorem alookup_spreadLeft (k : String) (a b : List (String × String)) :
    alookup k (a.map (fun p => match alookup p.1 b with | some v => (p.1, v) | none => p))
      = match alookup k a with
        | some v => some ((alookup k b).getD v)
        | none => none := by
  induction a with
  | nil => simp [alookup]
  | cons p rest ih =>
    obtain ⟨k₀, v₀⟩ := p
    by_cases h : k₀ = k
    · subst h
      cases hb : alookup k₀ b <;> simp [alookup, hb]
    · cases hb : alookup k₀ b <;> simp [alookup, h, hb, ih]

theorem alookup_filterNotIn (k : String) (a b : List (String × String)) :
    alookup k (b.filter (fun p => (alookup p.1 a).isNone))
      = if alookup k a = none then alookup k b else none := by
  induction b with
  | nil => simp [alookup]
  | cons p rest ih =>
    obtain ⟨k₀, v₀⟩ := p
    by_cases h : k₀ = k
    · subst h
      cases ha : alookup k₀ a <;> simp [alookup, List.filter, ha, ih]
    · cases ha : alookup k₀ a <;> simp [alookup, List.filter, ha, h, ih]

/-- Lookup in a JS spread `{...a, ...b}`: a key bound in `b` (seen later)
wins, otherwise the binding of `a` applies. -/
theorem alookup_jsSpread (k : String) (a b : List (String × String)) :
    alookup k (jsSpread a b) = match alookup k b with
      | some v => some v
      | none => alookup k a := by
  unfold jsSpread
  rw [alookup_append, alookup_spreadLeft, alookup_filterNotIn]
  cases ha : alookup k a <;> cases hb : alookup k b <;> simp [ha, hb]

/-- C4 (amended): on a node-dedup collision the registry takes confidence
and source from the strictly-higher-confidence duplicate, always sums
popularity, and - only when BOTH duplicates carry a `data` map -
shallow-unions the maps with later-seen keys overwriting earlier ones; when
either duplicate lacks a `data` map the first-seen duplicate's `data` field
is kept unchanged (a later duplicate's map is dropped when the first had
none). -/
theorem claimC4_merge_collision_fields (n1 n2 : AnalyzerNode)
    (hkey : nodeKey n1 = nodeKey n2) :
    ((n2.confidence > n1.confidence →
        (mergeNodes n1 n2).confidence = n2.confidence ∧
        (mergeNodes n1 n2).source = n2.source) ∧
      (¬ n2.confidence > n1.confidence →
        (mergeNodes n1 n2).confidence = n1.confidence ∧
        (mergeNodes n1 n2).source = n1.source)) ∧
    (mergeNodes n1 n2).popularity = n1.popularity + n2.popularity ∧
    (∀ a b, n1.data = some a → n2.data = some b →
      (mergeNodes n1 n2).data = some (jsSpread a b) ∧
      ∀ k, alookup k (jsSpread a b) = match alookup k b with
        | some v => some v
        | none => alookup k a) ∧
    ((n1.data = none ∨ n2.data = none) → (mergeNodes n1 n2).data = n1.data) := by
  refine ⟨⟨?_, ?_⟩, ?_, ?_, ?_⟩
  · intro hc
    cases hd2 : n2.data <;> cases hd1 : n1.data <;> simp [mergeNodes, hc, hd1, hd2]
  · intro hc
    cases hd2 : n2.data <;> cases hd1 : n1.data <;> simp [mergeNodes, hc, hd1, hd2]
  · by_cases hc : n2.confidence > n1.confidence <;>
      cases hd2 : n2.data <;> cases hd1 : n1.data <;> simp [mergeNodes, hc, hd1, hd2]
  · intro a b h1 h2
    refine ⟨?_, fun k => alookup_jsSpread k a b⟩
    by_cases hc : n2.confidence > n1.confidence <;> simp [mergeNodes, hc, h1, h2]
  · intro h
    rcases h with h | h
    · cases hd2 : n2.data <;>
        by_cases hc : n2.confidence > n1.confidence <;> simp [mergeNodes, hc, hd2, h]
    · by_cases hc : n2.confidence > n1.confidence <;> simp [mergeNodes, hc, h]

def c4HighNode : AnalyzerNode :=
  ⟨"a", "Entrepreneur", 1, .subNiche, "reddit", some [("why", "llm"), ("subs", "1000")],
    mkRat 9 10, 100⟩

def c4LowNode : AnalyzerNode :=
  ⟨"b", "entrepreneur ", 1, .subNiche, "facebook", some [("subs", "2000"), ("grp", "5")],
    mkRat 6 10, 50⟩

theorem claimC4_merge_collision_fields_witness :
    nodeKey c4HighNode = nodeKey c4LowNode ∧
    (((c4LowNode.confidence > c4HighNode.confidence →
        (mergeNodes c4HighNode c4LowNode).confidence = c4LowNode.confidence ∧
        (mergeNodes c4HighNode c4LowNode).source = c4LowNode.source) ∧
      (¬ c4LowNode.confidence > c4HighNode.confidence →
        (mergeNodes c4HighNode c4LowNode).confidence = c4HighNode.confidence ∧
        (mergeNodes c4HighNode c4LowNode).source = c4HighNode.source)) ∧
    (mergeNodes c4HighNode c4LowNode).popularity
        = c4HighNode.popularity + c4LowNode.popularity ∧
    (∀ a b, c4HighNode.data = some a → c4LowNode.data = some b →
      (mergeNodes c4HighNode c4LowNode).data = some (jsSpread a b) ∧
      ∀ k, alookup k (jsSpread a b) = match alookup k b with
        | some v => some v
        | none => alookup k a) ∧
    ((c4HighNode.data = none ∨ c4LowNode.data = none) →
      (mergeNodes c4HighNode c4LowNode).data = c4HighNode.data)) :=
  ⟨by decide, claimC4_merge_collision_fields c4HighNode c4LowNode (by decide)⟩

def c4NoDataNode : AnalyzerNode :=
  ⟨"a", "Fitness", 1, .subNiche, "reddit", none, mkRat 9 10, 100⟩

def c4WithDataNode : AnalyzerNode :=
  ⟨"b", "fitness", 1, .subNiche, "facebook", some [("note", "from-facebook")],
    mkRat 6 10, 50⟩

/-- C4 counterexample: two duplicates with the same identity key where the
first-seen duplicate has no `data` map and the later one does.  The claimed
shallow union would carry the key `note`, but `combineResults` only merges
`data` when BOTH nodes have one (`if (node.data && existing.data)`), so the
merged node's `data` stays `none` and the later duplicate's map is dropped. -/
theorem claimC4_shallow_union_counterexample :
    nodeKey c4NoDataNode = nodeKey c4WithDataNode ∧
    c4WithDataNode.data = some [("note", "from-facebook")] ∧
    (mergeNodes c4NoDataNode c4WithDataNode).data = none := by decide

def c3RedditResult : AnalyzerResult :=
  ⟨[⟨"a", "Fitness", 1, .subNiche, "reddit", none, mkRat 9 10, 100⟩], [],
    ⟨"reddit", 5, 1, []⟩⟩

def c3OtherResult : AnalyzerResult :=
  ⟨[⟨"b", "fitness", 1, .subNiche, "stack", none, mkRat 6 10, 50⟩,
    ⟨"c", "Home Workouts", 2, .topic, "stack", none, mkRat 5 10, 10⟩],
   [⟨"e1", "b", "c", .contains, mkRat 7 10, "stack"⟩],
   ⟨"stack", 3, 1, []⟩⟩

/-- C3 evaluation at the failing input: the second analyzer's node `b` is a
duplicate of `a` (same identity key `fitness-1`) and is discarded by the
dedup, so the id remap table has no entry for `b`; the edge `b -> c` keeps
its stale source id `b` (`nodeIdMap.get(edge.source) || edge.source`) and
dangles: `b` is not an id of the merged node set. -/
theorem claimC3_dangling_edge_eval :
    (combineResults [c3RedditResult, c3OtherResult]).nodes.map (·.id)
        = ["node-1-0", "node-2-1"] ∧
    (combineResults [c3RedditResult, c3OtherResult]).edges.map (·.source) = ["b"] ∧
    ((combineResults [c3RedditResult, c3OtherResult]).nodes.map (·.id)).contains "b"
        = false := by decide

/-- Lexicographic comparison of char lists by code unit, as JS string
comparison does for the default `Array.prototype.sort` comparator. -/
def charListLt : List Char → List Char → Bool
  | [], [] => false
  | [], _ :: _ => true
  | _ :: _, [] => false
  | a :: as, b :: bs =>
    if a.toNat < b.toNat then true
    else if b.toNat < a.toNat then false
    else charListLt as bs

/-- JS default sort comparator on the string forms. -/
def jsStrLt (a b : String) : Bool := charListLt a.data b.data

/-- Insertion into a sorted list (stable). -/
def insertSorted {α : Type} (le : α → α → Bool) (a : α) : List α → List α
  | [] => [a]
  | b :: rest => if le a b then a :: b :: rest else b :: insertSorted le a rest

/-- Stable insertion sort with a boolean `le`. -/
def sortWith {α : Type} (le : α → α → Bool) (l : List α) : List α :=
  l.foldr (insertSorted le) []

/-- Distinct values of a list in first-seen order. -/
def distinctFirstSeen (l : List Nat) : List Nat :=
  l.foldl (fun acc x => if acc.contains x then acc else acc ++ [x]) []

/-- The level list of `streamRealData`: the keys of the `nodesByLevel`
object (integer object keys enumerate in ascending numeric order), then
`.map(Number).sort()` - the default JS sort compares decimal STRING forms. -/
def jsLevels (ns : List DiscoveryNode) : List Nat :=
  sortWith (fun a b => !(jsStrLt (toString b) (toString a)))
    (sortWith Nat.ble (distinctFirstSeen (ns.map (·.level))))

/-- The nodes grouped under level `l` by the `reduce` in `streamRealData`
(original order preserved). -/
def nodesAtLevel (ns : List DiscoveryNode) (l : Nat) : List DiscoveryNode :=
  ns.filter (fun n => n.level == l)

/-- The `edgeCount` of a `level_completed` event: edges whose SOURCE node
(first node with matching id) sits at the given level. -/
def levelEdgeCount (g : DiscoveryGraph) (l : Nat) : Nat :=
  (g.edges.filter (fun e =>
    match g.nodes.find? (fun n => n.id == e.source) with
    | some n => n.level == l
    | none => false)).length

/-- SSE events written by the discovery streaming route. -/
inductive StreamEvent
  | connected (jobId : String) (status : JobStatus)
  | progress (progress : Rat) (currentLevel : Nat) (status : JobStatus)
      (subAnalysis : Option SubAnalysis)
  | levelStarted (level : Nat)
  | nodeFound (node : DiscoveryNode)
  | levelCompleted (level : Nat) (nodeCount : Nat) (edgeCount : Nat)
  | edgeFound (edge : DiscoveryEdge)
  | done (totalNodes : Nat) (totalEdges : Nat) (completedLevels : Nat)
  | error (message : String) (code : String)
deriving DecidableEq, Repr

/-- The per-level block of the mid-run completion replay (poll branch,
routes.ts lines 157-175): `level_started`, one `node_found` per node, then
`level_completed` with that level's node/edge counts. -/
def replayLevelFull (g : DiscoveryGraph) (l : Nat) : List StreamEvent :=
  [.levelStarted l] ++ (nodesAtLevel g.nodes l).map .nodeFound
    ++ [.levelCompleted l (nodesAtLevel g.nodes l).length (levelEdgeCount g l)]

/-- The per-level block of the already-complete branch (routes.ts lines
227-235): `level_started` and the `node_found` events, but NO
`level_completed`. -/
def replayLevelNodes (g : DiscoveryGraph) (l : Nat) : List StreamEvent :=
  [.levelStarted l] ++ (nodesAtLevel g.nodes l).map .nodeFound

/-- The completion replay emitted by the polling branch once the job turns
`complete`: per-level blocks with `level_completed`, then all edges, then
one `done`. -/
def completedReplay (g : DiscoveryGraph) : List StreamEvent :=
  (jsLevels g.nodes).flatMap (replayLevelFull g)
    ++ g.edges.map .edgeFound
    ++ [.done g.nodes.length g.edges.length (jsLevels g.nodes).length]

/-- The replay emitted by the already-complete branch (client connects when
the job graph is already populated): per-level blocks WITHOUT
`level_completed`, then all edges, then one `done`. -/
def alreadyCompleteReplay (g : DiscoveryGraph) : List StreamEvent :=
  (jsLevels g.nodes).flatMap (replayLevelNodes g)
    ++ g.edges.map .edgeFound
    ++ [.done g.nodes.length g.edges.length (jsLevels g.nodes).length]

/-- Is this a `level_completed` event? -/
def isLevelCompletedEv : StreamEvent → Bool
  | .levelCompleted _ _ _ => true
  | _ => false

/-- Is this a terminal event (`done` or `error`)? -/
def isTerminalEvent : StreamEvent → Bool
  | .done _ _ _ => true
  | .error _ _ => true
  | _ => false

/-- Whether a poll tick keeps the interval alive or has ended the stream
(`clearInterval` + `reply.raw.end()`). -/
inductive PollStep
  | keepPolling
  | closed
deriving DecidableEq, Repr

/-- One tick of the 1-second poll loop of `streamRealData` (routes.ts lines
121-214): emit `progress`; if the job is `complete` with a non-empty graph,
emit the completion replay and close; if the job is `error`, emit one
`error` event and close; otherwise keep polling.  `connectMaxLevels` is the
`job.config.maxLevels` captured at connection time. -/
def pollTick (connectMaxLevels : Int) (jobq : Option DiscoveryJob)
    (g : DiscoveryGraph) : List StreamEvent × PollStep :=
  match jobq with
  | none => ([.error "Job not found" "JOB_NOT_FOUND"], .closed)
  | some j =>
    let prog : Rat :=
      if j.status = .complete then 100
      else ((j.currentLevel : Rat) / (connectMaxLevels : Rat)) * 100
    let pe := StreamEvent.progress prog j.currentLevel j.status j.subAnalysis
    if j.status = .complete ∧ 0 < g.nodes.length then
      ([pe] ++ completedReplay g, .closed)
    else if j.status = .jobError then
      ([pe, .error (jsOrStr j.error "Discovery failed") "DISCOVERY_ERROR"], .closed)
    else ([pe], .keepPolling)

/-- Run the poll loop from tick `i` for at most `fuel` ticks against a
schedule of observed job/graph snapshots; stop when a tick closes the
stream. -/
def pollRunFrom (connectMaxLevels : Int)
    (sched : Nat → Option DiscoveryJob × DiscoveryGraph) (i : Nat) :
    Nat → List StreamEvent
  | 0 => []
  | fuel + 1 =>
    let r := pollTick connectMaxLevels (sched i).1 (sched i).2
    match r.2 with
    | .closed => r.1
    | .keepPolling => r.1 ++ pollRunFrom connectMaxLevels sched (i + 1) fuel

/-- The events of a whole polling connection observing `n` snapshots. -/
def pollRun (connectMaxLevels : Int)
    (sched : Nat → Option DiscoveryJob × DiscoveryGraph) (n : Nat) :
    List StreamEvent :=
  pollRunFrom connectMaxLevels sched 0 n

theorem isLC_levelStarted (l : Nat) :
    isLevelCompletedEv (.levelStarted l) = false := rfl

theorem isLC_levelCompleted (l a b : Nat) :
    isLevelCompletedEv (.levelCompleted l a b) = true := rfl

theorem isLC_done (a b c : Nat) : isLevelCompletedEv (.done a b c) = false := rfl

theorem filter_notLC_map_nodeFound (ns : List DiscoveryNode) :
    (ns.map StreamEvent.nodeFound).filter (fun e => !(isLevelCompletedEv e))
      = ns.map StreamEvent.nodeFound := by
  induction ns with
  | nil => rfl
  | cons n rest ih => simp [isLevelCompletedEv, ih]

theorem filter_notLC_map_edgeFound (es : List DiscoveryEdge) :
    (es.map StreamEvent.edgeFound).filter (fun e => !(isLevelCompletedEv e))
      = es.map StreamEvent.edgeFound := by
  induction es with
  | nil => rfl
  | cons e rest ih => simp [isLevelCompletedEv, ih]

theorem filter_notLC_flatMap (g : DiscoveryGraph) (ls : List Nat) :
    (ls.flatMap (replayLevelFull g)).filter (fun e => !(isLevelCompletedEv e))
      = ls.flatMap (replayLevelNodes g) := by
  induction ls with
  | nil => rfl
  | cons l rest ih =>
    simp [replayLevelFull, replayLevelNodes, List.filter_append, ih,
      isLC_levelStarted, isLC_levelCompleted, filter_notLC_map_nodeFound]

/-- C1 (amended): for every job graph, the replay emitted to a client that
was connected while the job ran and the replay emitted to a client that
connects after completion agree event-for-event EXCEPT that the
after-completion branch omits every `level_completed` event: erasing the
`level_completed` events from the mid-run completion replay yields exactly
the after-completion replay (same levels in the same order, same
`node_found` and `edge_found` events, and the same single final `done`). -/
theorem claimC1_replay_amended (g : DiscoveryGraph) :
    (completedReplay g).filter (fun e => !(isLevelCompletedEv e))
      = alreadyCompleteReplay g := by
  unfold completedReplay alreadyCompleteReplay
  simp [List.filter_append, filter_notLC_flatMap, filter_notLC_map_edgeFound,
    isLC_done]

def c1Node : DiscoveryNode :=
  ⟨"node-0-0", "ai tools", 0, .niche, "reddit", mkRat 8 10, 0, none, some []⟩

def c1Graph : DiscoveryGraph := ⟨[c1Node], []⟩

/-- C1 counterexample: on a completed job whose graph holds a single level-0
node, the polling branch's completion replay contains a `level_completed`
event while the already-complete branch's replay does not, so the two event
sequences are NOT identical. -/
theorem claimC1_replay_counterexample :
    completedReplay c1Graph
        = [.levelStarted 0, .nodeFound c1Node, .levelCompleted 0 1 0, .done 1 0 1] ∧
    alreadyCompleteReplay c1Graph
        = [.levelStarted 0, .nodeFound c1Node, .done 1 0 1] ∧
    completedReplay c1Graph ≠ alreadyCompleteReplay c1Graph := by decide

theorem countP_terminal_map_nodeFound (ns : List DiscoveryNode) :
    (ns.map StreamEvent.nodeFound).countP isTerminalEvent = 0 := by
  induction ns with
  | nil => rfl
  | cons n rest ih => simp [List.countP_cons, isTerminalEvent, ih]

theorem countP_terminal_map_edgeFound (es : List DiscoveryEdge) :
    (es.map StreamEvent.edgeFound).countP isTerminalEvent = 0 := by
  induction es with
  | nil => rfl
  | cons e rest ih => simp [List.countP_cons, isTerminalEvent, ih]

theorem countP_terminal_flatMap_full (g : DiscoveryGraph) (ls : List Nat) :
    (ls.flatMap (replayLevelFull g)).countP isTerminalEvent = 0 := by
  induction ls with
  | nil => rfl
  | cons l rest ih =>
    simp [replayLevelFull, List.countP_append, List.countP_cons, isTerminalEvent,
      countP_terminal_map_nodeFound, ih]

theorem countP_terminal_completedReplay (g : DiscoveryGraph) :
    (completedReplay g).countP isTerminalEvent = 1 := by
  simp [completedReplay, List.countP_append, List.countP_cons, isTerminalEvent,
    countP_terminal_flatMap_full, countP_terminal_map_edgeFound]

theorem pollTick_terminal_bound (maxL : Int) (jobq : Option DiscoveryJob)
    (g : DiscoveryGraph) :
    (pollTick maxL jobq g).1.countP isTerminalEvent ≤ 1 ∧
    ((pollTick maxL jobq g).2 = PollStep.keepPolling →
      (pollTick maxL jobq g).1.countP isTerminalEvent = 0) := by
  cases jobq with
  | none => simp [pollTick, List.countP_cons, isTerminalEvent]
  | some j =>
    by_cases h1 : j.status = .complete ∧ 0 < g.nodes.length
    · simp [pollTick, h1, List.countP_cons, isTerminalEvent,
        countP_terminal_completedReplay]
    · by_cases h2 : j.status = .jobError
      · simp [pollTick, h1, h2, List.countP_cons, isTerminalEvent]
      · simp [pollTick, h1, h2, List.countP_cons, isTerminalEvent]

theorem pollRunFrom_terminal_at_most_one (maxL : Int)
    (sched : Nat → Option DiscoveryJob × DiscoveryGraph) (i fuel : Nat) :
    (pollRunFrom maxL sched i fuel).countP isTerminalEvent ≤ 1 := by
  induction fuel generalizing i with
  | zero => simp [pollRunFrom]
  | succ n ih =>
    have hb := pollTick_terminal_bound maxL (sched i).1 (sched i).2
    unfold pollRunFrom
    cases h : (pollTick maxL (sched i).1 (sched i).2).2 with
    | keepPolling =>
      simp [h, List.countP_append, hb.2 h, ih]
    | closed => simpa [h] using hb.1

/-- C6 (amended): the poll loop treats a `cancelled` job like a still-running
one: the tick emits a single `progress` event (carrying the cancelled
status) and keeps polling - no terminal event is emitted and the stream is
not closed; a terminal `error` event is produced only for status `error`
(or a vanished job), and across any polling connection at most one terminal
event (`done` or `error`) is ever emitted. -/
theorem claimC6_cancelled_keeps_polling (maxL : Int) (j : DiscoveryJob)
    (g : DiscoveryGraph) (sched : Nat → Option DiscoveryJob × DiscoveryGraph)
    (n : Nat) (hc : j.status = .cancelled) :
    pollTick maxL (some j) g
        = ([.progress (((j.currentLevel : Rat) / (maxL : Rat)) * 100)
              j.currentLevel j.status j.subAnalysis], .keepPolling) ∧
    (pollRun maxL sched n).countP isTerminalEvent ≤ 1 := by
  constructor
  · simp [pollTick, hc]
  · exact pollRunFrom_terminal_at_most_one maxL sched 0 n

def c6Job : DiscoveryJob :=
  ⟨"job-1", ⟨"ai tools", 2, 5, ["reddit"]⟩, .cancelled, 1, 0, 0, 0, 5,
    some "Job was cancelled by user", none⟩

def c6Sched : Nat → Option DiscoveryJob × DiscoveryGraph :=
  fun _ => (some c6Job, ⟨[], []⟩)

theorem claimC6_cancelled_keeps_polling_witness :
    c6Job.status = JobStatus.cancelled ∧
    (pollTick 2 (some c6Job) ⟨[], []⟩
        = ([.progress (((c6Job.currentLevel : Rat) / ((2 : Int) : Rat)) * 100)
              c6Job.currentLevel c6Job.status c6Job.subAnalysis], .keepPolling) ∧
      (pollRun 2 c6Sched 3).countP isTerminalEvent ≤ 1) :=
  ⟨rfl, claimC6_cancelled_keeps_polling 2 c6Job ⟨[], []⟩ c6Sched 3 rfl⟩

/-- C6 counterexample: a stream polling a job whose status is (and stays)
`cancelled` never emits a terminal event and never closes: the tick yields
no `done`/`error` event and keeps polling, refuting "emits exactly one
terminal error event and closes". -/
theorem claimC6_cancelled_counterexample :
    c6Job.status = JobStatus.cancelled ∧
    (pollTick 2 (some c6Job) ⟨[], []⟩).2 = PollStep.keepPolling ∧
    (pollTick 2 (some c6Job) ⟨[], []⟩).1.countP isTerminalEvent = 0 := by decide

/-- A thrown JS error as observed by `catch` blocks: its `name` and
`message` (the cancellation signal is `name === 'AbortError'`). -/
structure JsError where
  name : String
  message : String
deriving DecidableEq, Repr

/-- `AnalyzerRegistry.analyzeWithMultiplePlatforms`, modelled over the
per-analyzer outcomes (platform name paired with the result of
`analyzer.analyze`, which throws exactly when the installed progress
callback throws or the platform fails).  The per-analyzer `catch` swallows
ANY error - including an `AbortError` raised by the progress callback -
records its message, and contributes `null`; when every analyzer failed a
NEW plain `Error` is thrown whose name is `"Error"`, not `"AbortError"`. -/
def analyzeWithMultiplePlatforms
    (outcomes : List (String × Except JsError AnalyzerResult)) :
    Except JsError CombinedAnalyzerResult :=
  let errors := outcomes.filterMap (fun p =>
    match p.2 with
    | .error e => some ("Error in " ++ p.1 ++ " analyzer: " ++ e.message)
    | .ok _ => none)
  let analyzerResults := outcomes.filterMap (fun p =>
    match p.2 with
    | .ok res => some res
    | .error _ => none)
  if outcomes.isEmpty then
    .error ⟨"Error", "No analyzers found for platforms: "
      ++ String.intercalate ", " (outcomes.map (·.1))⟩
  else if analyzerResults.isEmpty then
    .error ⟨"Error", "All analyzers failed. Errors: "
      ++ String.intercalate "; " errors⟩
  else .ok (combineResults analyzerResults)

/-- Outcome of `RedditAnalyzer.analyze` under the service's progress
callback (discovery.service.ts lines 190-207): when the job's cancel flag
is set, the next callback invocation throws an `AbortError`, which the
analyzer's outer `catch` (reddit.analyzer.ts line 340) rethrows; otherwise
the analyzer resolves with its result. -/
def redditAnalyzeOutcome (cancelled : Bool) (result : AnalyzerResult) :
    Except JsError AnalyzerResult :=
  if cancelled then .error ⟨"AbortError", "Discovery job was cancelled"⟩
  else .ok result

/-- The mutable state of one `DiscoveryServiceImpl` instance: the repo plus
the `activeJobs` keys (AbortControllers) and the `cancelledJobs` set. -/
structure ServiceState where
  repo : RepoState
  activeJobs : List String
  cancelledJobs : List String
deriving DecidableEq, Repr

/-- A freshly constructed service. -/
def svc0 : ServiceState := ⟨emptyRepo, [], []⟩

/-- Response of `startDiscovery`. -/
structure StartResult where
  jobId : String
  status : String
  message : String
deriving DecidableEq, Repr

/-- Response of `cancelJob`. -/
structure CancelResult where
  success : Bool
  message : String
deriving DecidableEq, Repr

/-- The synchronous part of `DiscoveryServiceImpl.startDiscovery`: create
the job record, register the abort controller under the job id, and answer
`{jobId, status: 'starting', message}`; the background task runs later. -/
def startDiscoveryCreate (s : ServiceState) (now : Nat) (newId : String)
    (cfg : DiscoveryConfig) : ServiceState × StartResult :=
  let (r1, job) := createJob s.repo now newId cfg
  ({ repo := r1
     activeJobs := if s.activeJobs.contains newId then s.activeJobs
       else s.activeJobs ++ [newId]
     cancelledJobs := s.cancelledJobs },
   { jobId := job.id, status := "starting",
     message := "Discovery job started successfully" })

/-- The start of `runRealDiscovery`: mark the job `discovering`. -/
def bgBegin (s : ServiceState) (now : Nat) (jobId : String) : ServiceState :=
  { s with repo := updateJobStatus s.repo now jobId .discovering none }

/-- `DiscoveryServiceImpl.cancelJob`: only the presence of an abort
controller is checked (NOT the job's status); on success the cancel flag is
set, the controller aborted, and the job status overwritten to `cancelled`. -/
def cancelJob (s : ServiceState) (now : Nat) (jobId : String) :
    ServiceState × CancelResult :=
  if s.activeJobs.contains jobId then
    let cks := if s.cancelledJobs.contains jobId then s.cancelledJobs
      else s.cancelledJobs ++ [jobId]
    ({ repo := updateJobStatus s.repo now jobId .cancelled
         (some "Job was cancelled by user")
       activeJobs := s.activeJobs
       cancelledJobs := cks },
     { success := true, message := "Job cancelled successfully" })
  else (s, { success := false, message := "Job not found or already completed" })

/-- `storeAnalyzerResults`: convert and append every combined node, then
every combined edge (the discovery node gets `metadata || {}`, the
discovery edge drops confidence and platform). -/
def toDiscoveryNode (n : AnalyzerNode) : DiscoveryNode :=
  { id := n.id, label := n.label, level := n.level, type := n.type,
    source := n.source, confidence := n.confidence, popularity := n.popularity,
    data := n.data, metadata := some [] }

/-- Edge conversion inside `storeAnalyzerResults`. -/
def toDiscoveryEdge (e : AnalyzerEdge) : DiscoveryEdge :=
  { id := e.id, source := e.source, target := e.target,
    relationship := e.relationship, weight := none }

/-- The two storage loops of `storeAnalyzerResults`. -/
def storeAnalyzerResults (r : RepoState) (now : Nat) (jobId : String)
    (cr : CombinedAnalyzerResult) : RepoState :=
  let r1 := cr.nodes.foldl (fun acc n => addNode acc now jobId (toDiscoveryNode n)) r
  cr.edges.foldl (fun acc e => addEdge acc now jobId (toDiscoveryEdge e)) r1

/-- The rest of the background task after `bgBegin`, as one atomic step: the
single registered reddit analyzer runs against the CURRENT cancel flag; on
success the results are stored and the job marked `complete`
(`runRealDiscovery`); on failure `runRealDiscovery`'s catch marks the job
`error` and rethrows, and `startDiscovery`'s `.catch` then marks it
`cancelled` only when the escaped error is still named `AbortError` - else
`error` again.  The `.finally` cleanup always removes the abort controller
and the cancel flag. -/
def bgFinish (s : ServiceState) (now : Nat) (jobId : String)
    (redditResult : AnalyzerResult) : ServiceState :=
  let cancelled := s.cancelledJobs.contains jobId
  let outcome := analyzeWithMultiplePlatforms
    [("reddit", redditAnalyzeOutcome cancelled redditResult)]
  let repo1 := match outcome with
    | .ok combined =>
      let stored := storeAnalyzerResults s.repo now jobId combined
      updateJobStatus stored now jobId .complete none
    | .error e =>
      let afterRun := updateJobStatus s.repo now jobId .jobError (some e.message)
      if e.name = "AbortError" then
        updateJobStatus afterRun now jobId .cancelled
          (some "Job was cancelled by user")
      else updateJobStatus afterRun now jobId .jobError (some e.message)
  { repo := repo1
    activeJobs := s.activeJobs.erase jobId
    cancelledJobs := s.cancelledJobs.erase jobId }

/-- The status a job record currently holds. -/
def jobStatus (s : ServiceState) (id : String) : Option JobStatus :=
  (getJob s.repo id).map (·.status)

def traceCfg : DiscoveryConfig := ⟨"ai tools", 2, 5, ["reddit"]⟩

def traceResult : AnalyzerResult := ⟨[], [], ⟨"reddit", 5, 1, []⟩⟩

/-- Trace: start a job, let the background task begin, cancel it mid-run,
then let the background task settle. -/
def cancelTrace1 : ServiceState := (startDiscoveryCreate svc0 0 "job-1" traceCfg).1

def cancelTrace2 : ServiceState := bgBegin cancelTrace1 1 "job-1"

def cancelTrace3 : ServiceState := (cancelJob cancelTrace2 2 "job-1").1

def cancelTrace4 : ServiceState := bgFinish cancelTrace3 3 "job-1" traceResult

/-- C2: evaluation of the cancellation pipeline at a concrete trace.
Cancelling the running job marks it `cancelled`, but the `AbortError`
raised by the progress callback is swallowed by the registry's per-analyzer
catch and rewrapped as a plain `Error` named `"Error"` ("All analyzers
failed"), so both `runRealDiscovery`'s catch and `startDiscovery`'s
`.catch` overwrite the status with `error`: the job's FINAL status is
`error`, not `cancelled`, contradicting the claim. -/
theorem claimC2_cancel_ends_in_error :
    (cancelJob cancelTrace2 2 "job-1").2.success = true ∧
    jobStatus cancelTrace3 "job-1" = some JobStatus.cancelled ∧
    jobStatus cancelTrace4 "job-1" = some JobStatus.jobError ∧
    (getJob cancelTrace4.repo "job-1").bind (fun j => j.error)
      = some "All analyzers failed. Errors: Error in reddit analyzer: Discovery job was cancelled" := by
  decide

/-- C5: in the same trace the job reaches the terminal status `cancelled`
(set by `cancelJob`) and is then mutated AGAIN by the settling background
task, which overwrites the status with the terminal status `error`
(`updateJobStatus` has no terminal-state guard), contradicting
immutability-after-terminal. -/
theorem claimC5_terminal_status_overwritten :
    jobStatus cancelTrace3 "job-1" = some JobStatus.cancelled ∧
    jobStatus cancelTrace4 "job-1" = some JobStatus.jobError ∧
    cancelTrace4.repo ≠ cancelTrace3.repo := by decide

/-- C9 counterexample: the job of the trace is already in the terminal
status `cancelled`, yet a second cancel request - issued before the
background task settles, so the abort controller is still registered -
returns `success: true` and touches the job record again
(`cancelJob` checks `activeJobs`, never the job's status). -/
theorem claimC9_second_cancel_succeeds :
    jobStatus cancelTrace3 "job-1" = some JobStatus.cancelled ∧
    (cancelJob cancelTrace3 4 "job-1").2.success = true ∧
    (cancelJob cancelTrace3 4 "job-1").1.repo ≠ cancelTrace3.repo := by decide

/-- C9 (amended): a cancel request for a job id without a registered abort
controller - an unknown id, or a job whose background task has settled (the
`.finally` cleanup removes the controller) - answers `success: false` with
the not-found message and leaves the whole service state (every job record
and graph) unchanged; but a cancel against an already-cancelled job whose
background task has NOT yet settled still answers `success: true` and
touches the record again. -/
theorem claimC9_cancel_inactive_noop (s : ServiceState) (now : Nat) (id : String)
    (h : s.activeJobs.contains id = false) :
    cancelJob s now id
      = (s, { success := false, message := "Job not found or already completed" }) := by
  unfold cancelJob
  rw [h]
  rfl

theorem claimC9_cancel_inactive_noop_witness :
    cancelTrace4.activeJobs.contains "job-1" = false ∧
    cancelJob cancelTrace4 5 "job-1"
      = (cancelTrace4,
          { success := false, message := "Job not found or already completed" }) :=
  ⟨by decide, claimC9_cancel_inactive_noop cancelTrace4 5 "job-1" (by decide)⟩

/-- The zod `DiscoveryConfigSchema`: niche a non-empty string, `maxLevels`
in [1, 10], `maxNodesPerLevel` in [1, 100], at least one source. -/
def validateDiscoveryConfig (c : DiscoveryConfig) : Bool :=
  decide (1 ≤ c.niche.length ∧ 1 ≤ c.maxLevels ∧ c.maxLevels ≤ 10 ∧
    1 ≤ c.maxNodesPerLevel ∧ c.maxNodesPerLevel ≤ 100 ∧ 1 ≤ c.sources.length)

/-- Response of `POST /api/discover`: fastify validates the body against the
schema BEFORE the handler runs, so an invalid config is rejected without
any job being created. -/
inductive StartRouteResponse
  | ok (jobId : String) (status : String) (message : String)
  | validationFailure
deriving DecidableEq, Repr

/-- The `POST /api/discover` route: schema validation, then
`startDiscovery`. -/
def postApiDiscover (s : ServiceState) (now : Nat) (newId : String)
    (c : DiscoveryConfig) : ServiceState × StartRouteResponse :=
  if validateDiscoveryConfig c then
    let r := startDiscoveryCreate s now newId c
    (r.1, .ok r.2.jobId r.2.status r.2.message)
  else (s, .validationFailure)

def c8OutOfRangeCfg : DiscoveryConfig := ⟨"ai tools", 11, 5, ["reddit"]⟩

/-- C8 counterexample: the config `{niche: "ai tools", maxLevels: 11,
maxNodesPerLevel: 5, sources: ["reddit"]}` passes every check the claim
lists (non-empty niche, positive numbers, non-empty sources) yet the schema
rejects it - `maxLevels` also has the upper bound 10 (`max(10)`), so no job
is created and the response is a validation failure, refuting "for every
config passing these checks a job is created". -/
theorem claimC8_validation_counterexample :
    c8OutOfRangeCfg.niche ≠ "" ∧
    0 < c8OutOfRangeCfg.maxLevels ∧
    0 < c8OutOfRangeCfg.maxNodesPerLevel ∧
    c8OutOfRangeCfg.sources ≠ [] ∧
    postApiDiscover svc0 0 "job-1" c8OutOfRangeCfg = (svc0, .validationFailure) := by
  decide

/-- C8 (amended): a start request is rejected with a validation failure and
no job record is created when the niche is empty, `maxLevels` is outside
[1, 10], `maxNodesPerLevel` is outside [1, 100], or the sources list is
empty (in particular every config the claim lists as invalid is rejected);
and every config passing the full schema creates a job whose stored status
is `starting` and is answered with status `"starting"`. -/
theorem claimC8_validation (s : ServiceState) (now : Nat) (newId : String)
    (c : DiscoveryConfig) :
    ((c.niche = "" ∨ c.maxLevels ≤ 0 ∨ c.maxNodesPerLevel ≤ 0 ∨ c.sources = []) →
      validateDiscoveryConfig c = false) ∧
    (validateDiscoveryConfig c = false →
      postApiDiscover s now newId c = (s, .validationFailure)) ∧
    (validateDiscoveryConfig c = true →
      (postApiDiscover s now newId c).2
          = .ok newId "starting" "Discovery job started successfully" ∧
      jobStatus (postApiDiscover s now newId c).1 newId = some .starting) := by
  refine ⟨?_, ?_, ?_⟩
  · intro h
    rw [validateDiscoveryConfig, decide_eq_false_iff_not]
    rintro ⟨h1, h2, h3, h4, h5, h6⟩
    rcases h with h | h | h | h
    · rw [h] at h1
      simp at h1
    · omega
    · omega
    · rw [h] at h6
      simp at h6
  · intro h
    unfold postApiDiscover
    rw [h]
    rfl
  · intro h
    unfold postApiDiscover
    rw [h]
    constructor
    · rfl
    · simp [startDiscoveryCreate, createJob, jobStatus, getJob, alookup_aset_self]

def c8ValidCfg : DiscoveryConfig := ⟨"ai tools", 2, 5, ["reddit"]⟩

theorem claimC8_validation_witness :
    validateDiscoveryConfig c8ValidCfg = true ∧
    ((postApiDiscover svc0 0 "job-9" c8ValidCfg).2
        = .ok "job-9" "starting" "Discovery job started successfully" ∧
      jobStatus (postApiDiscover svc0 0 "job-9" c8ValidCfg).1 "job-9"
        = some .starting) :=
  ⟨by decide, (claimC8_validation svc0 0 "job-9" c8ValidCfg).2.2 (by decide)⟩

/-- A topic returned by `extractTopicsFromSubredditWithLLM`. -/
structure Topic where
  label : String
  confidence : Rat
  popularity : Option Rat
  reasoning : String
  data : Option (List (String × String))
deriving DecidableEq, Repr

/-- The nodes built from one parent's topics (reddit.analyzer.ts lines
257-275): take at most `Math.min(topics.length, 3)` topics; each node id is
`node-<level>-<parentId>-<index>` and the data map spreads the topic data
under `reasoning`/`original_subreddit`/`parent_subniche`. -/
def topicNodesFor (level : Nat) (parent : AnalyzerNode) (subredditName : String)
    (topics : List Topic) : List AnalyzerNode :=
  (topics.take (min topics.length 3)).enum.map (fun p =>
    { id := "node-" ++ toString level ++ "-" ++ parent.id ++ "-" ++ toString p.1
      label := p.2.label
      level := level
      type := .topic
      source := "reddit"
      confidence := p.2.confidence
      popularity := jsOrRat p.2.popularity 0
      data := some (jsSpread (p.2.data.getD [])
        [("reasoning", p.2.reasoning), ("original_subreddit", subredditName),
         ("parent_subniche", parent.label)]) })

/-- One per-parent expansion of the level loop (reddit.analyzer.ts lines
226-295): the subreddit name comes from `parentNode.data?.original_subreddit
|| parentNode.label`; a failed extraction is CAUGHT and treated as zero
children (`continue`), an empty topic list also contributes nothing, and
otherwise the topic nodes plus `contains` edges from the parent are
produced.  The external fetch+LLM call is abstracted by `extract`. -/
def expandParent (extract : Nat → AnalyzerNode → Except String (List Topic))
    (level : Nat) (parent : AnalyzerNode) :
    List AnalyzerNode × List AnalyzerEdge :=
  let subredditName := jsOrStr (parent.data.bind (alookup "original_subreddit"))
    parent.label
  match extract level parent with
  | .error _ => ([], [])
  | .ok topics =>
    if topics.length = 0 then ([], [])
    else
      let nodes := topicNodesFor level parent subredditName topics
      let edges := nodes.map (fun n =>
        ({ id := "edge-" ++ parent.id ++ "-" ++ n.id, source := parent.id,
           target := n.id, relationship := .contains, confidence := mkRat 7 10,
           source_platform := "reddit" } : AnalyzerEdge))
      (nodes, edges)

/-- The `for (let level = 2; level <= config.maxLevels; level++)` loop of
`RedditAnalyzer.analyze` (lines 201-310): per level, expand EVERY node of
the previous level, append the level's nodes and edges, and `break` the
first time a level yields zero new nodes.  The third component records
which levels the loop body actually processed. -/
def levelLoop (extract : Nat → AnalyzerNode → Except String (List Topic)) :
    Nat → Nat → List AnalyzerNode → List AnalyzerEdge →
    List AnalyzerNode × List AnalyzerEdge × List Nat
  | 0, _, ns, es => (ns, es, [])
  | rest + 1, level, ns, es =>
    let parents := ns.filter (fun n => n.level == level - 1)
    let expanded := parents.map (expandParent extract level)
    let levelNodes := expanded.flatMap (·.1)
    let levelEdges := expanded.flatMap (·.2)
    let ns' := ns ++ levelNodes
    let es' := es ++ levelEdges
    if levelNodes.length = 0 then (ns', es', [level])
    else
      let result := levelLoop extract rest (level + 1) ns' es'
      (result.1, result.2.1, level :: result.2.2)

/-- The whole deep-level phase: levels 2 through `maxLevels`. -/
def redditLevelLoop (extract : Nat → AnalyzerNode → Except String (List Topic))
    (maxLevels : Nat) (ns : List AnalyzerNode) (es : List AnalyzerEdge) :
    List AnalyzerNode × List AnalyzerEdge × List Nat :=
  levelLoop extract (maxLevels - 1) 2 ns es

theorem expandParent_no_children
    (extract : Nat → AnalyzerNode → Except String (List Topic))
    (level : Nat) (p : AnalyzerNode)
    (h : (∃ msg, extract level p = .error msg) ∨ extract level p = .ok []) :
    expandParent extract level p = ([], []) := by
  rcases h with ⟨msg, h⟩ | h <;> simp [expandParent, h]

theorem flatMap_of_all_nil {α β γ : Type} (l : List α)
    (f : α → List β × List γ) (h : ∀ x ∈ l, f x = ([], [])) :
    (l.map f).flatMap (·.1) = [] ∧ (l.map f).flatMap (·.2) = [] := by
  induction l with
  | nil => simp
  | cons a rest ih =>
    have ha := h a (by simp)
    have ih' := ih (fun x hx => h x (by simp [hx]))
    simp [ha, ih'.1, ih'.2]

theorem getJob_addNode_isSome (r : RepoState) (now : Nat) (jobId id : String)
    (n : DiscoveryNode) :
    (getJob (addNode r now jobId n) id).isSome = (getJob r id).isSome := by
  unfold addNode getJob
  cases hg : alookup jobId r.jobGraphs with
  | none => rfl
  | some g =>
    cases hj : alookup jobId r.jobs with
    | none => rfl
    | some job =>
      by_cases hid : id = jobId
      · subst hid
        simp [alookup_aset_self, hj]
      · simp [alookup_aset_ne _ _ _ _ (fun hc => hid hc.symm)]

theorem getJob_addEdge_isSome (r : RepoState) (now : Nat) (jobId id : String)
    (e : DiscoveryEdge) :
    (getJob (addEdge r now jobId e) id).isSome = (getJob r id).isSome := by
  unfold addEdge getJob
  cases hg : alookup jobId r.jobGraphs with
  | none => rfl
  | some g =>
    cases hj : alookup jobId r.jobs with
    | none => rfl
    | some job =>
      by_cases hid : id = jobId
      · subst hid
        simp [alookup_aset_self, hj]
      · simp [alookup_aset_ne _ _ _ _ (fun hc => hid hc.symm)]

theorem getJob_storeAnalyzerResults_isSome (r : RepoState) (now : Nat)
    (jobId id : String) (cr : CombinedAnalyzerResult) :
    (getJob (storeAnalyzerResults r now jobId cr) id).isSome
      = (getJob r id).isSome := by
  unfold storeAnalyzerResults
  have hn : ∀ (ns : List AnalyzerNode) (r₀ : RepoState),
      (getJob (ns.foldl (fun acc n => addNode acc now jobId (toDiscoveryNode n)) r₀)
        id).isSome = (getJob r₀ id).isSome := by
    intro ns
    induction ns with
    | nil => intro r₀; rfl
    | cons n rest ih =>
      intro r₀
      simp [List.foldl_cons, ih, getJob_addNode_isSome]
  have he : ∀ (es : List AnalyzerEdge) (r₀ : RepoState),
      (getJob (es.foldl (fun acc e => addEdge acc now jobId (toDiscoveryEdge e)) r₀)
        id).isSome = (getJob r₀ id).isSome := by
    intro es
    induction es with
    | nil => intro r₀; rfl
    | cons e rest ih =>
      intro r₀
      simp [List.foldl_cons, ih, getJob_addEdge_isSome]
  rw [he, hn]

/-- C7: when every parent expansion at some level of the loop fails or
returns no children, the level yields zero new nodes, the loop halts right
there (no deeper level is processed, no matter how many levels remain
configured), and the background task still settles the job as `complete`,
not `error`: the per-parent failures were all caught inside the loop, the
analyzer resolves normally, and `runRealDiscovery` marks the job complete. -/
theorem claimC7_zero_yield_halts_complete
    (extract : Nat → AnalyzerNode → Except String (List Topic))
    (rest level : Nat) (ns : List AnalyzerNode) (es : List AnalyzerEdge)
    (hzero : ∀ p ∈ ns.filter (fun n => n.level == level - 1),
      (∃ msg, extract level p = .error msg) ∨ extract level p = .ok [])
    (s : ServiceState) (now : Nat) (jobId : String) (r : AnalyzerResult)
    (hjob : (getJob s.repo jobId).isSome = true)
    (hflag : s.cancelledJobs.contains jobId = false) :
    levelLoop extract (rest + 1) level ns es = (ns, es, [level]) ∧
    jobStatus (bgFinish s now jobId r) jobId = some JobStatus.complete := by
  constructor
  · have hexp : ∀ p ∈ ns.filter (fun n => n.level == level - 1),
        expandParent extract level p = ([], []) :=
      fun p hp => expandParent_no_children extract level p (hzero p hp)
    obtain ⟨h1, h2⟩ := flatMap_of_all_nil _ (expandParent extract level) hexp
    simp only [levelLoop]
    simp [h1, h2]
  · unfold bgFinish
    rw [hflag]
    simp only [redditAnalyzeOutcome, if_neg Bool.false_ne_true,
      analyzeWithMultiplePlatforms]
    simp only [List.filterMap, List.isEmpty_cons, if_neg]
    have hsome : (getJob (storeAnalyzerResults s.repo now jobId
        (combineResults [r])) jobId).isSome = true := by
      rw [getJob_storeAnalyzerResults_isSome]
      exact hjob
    cases hj : alookup jobId (storeAnalyzerResults s.repo now jobId
        (combineResults [r])).jobs with
    | none =>
      rw [getJob] at hsome
      rw [hj] at hsome
      simp at hsome
    | some job =>
      simp [jobStatus, getJob, updateJobStatus, hj, alookup_aset_self]

def c7Extract : Nat → AnalyzerNode → Except String (List Topic) :=
  fun _ _ => .error "Reddit search failed: Forbidden"

def c7Root : AnalyzerNode :=
  ⟨"root", "ai tools", 0, .niche, "reddit", some [("specificity_score", "2")],
    mkRat 8 10, 0⟩

def c7Parent : AnalyzerNode :=
  ⟨"node-1-0", "Startups", 1, .subNiche, "reddit",
    some [("original_subreddit", "startups")], mkRat 7 10, 1000⟩

def c7Ns : List AnalyzerNode := [c7Root, c7Parent]

def c7Es : List AnalyzerEdge :=
  [⟨"edge-root-node-1-0", "root", "node-1-0", .contains, mkRat 8 10, "reddit"⟩]

def c7Svc : ServiceState := (startDiscoveryCreate svc0 0 "job-7" traceCfg).1

theorem claimC7_zero_yield_halts_complete_witness :
    (∀ p ∈ c7Ns.filter (fun n => n.level == 2 - 1),
        (∃ msg, c7Extract 2 p = .error msg) ∨ c7Extract 2 p = .ok []) ∧
    (getJob c7Svc.repo "job-7").isSome = true ∧
    c7Svc.cancelledJobs.contains "job-7" = false ∧
    (levelLoop c7Extract (1 + 1) 2 c7Ns c7Es = (c7Ns, c7Es, [2]) ∧
      jobStatus (bgFinish c7Svc 9 "job-7" traceResult) "job-7"
        = some JobStatus.complete) :=
  ⟨fun p _ => Or.inl ⟨"Reddit search failed: Forbidden", rfl⟩, by decide, by decide,
    claimC7_zero_yield_halts_complete c7Extract 1 2 c7Ns c7Es
      (fun p _ => Or.inl ⟨"Reddit search failed: Forbidden", rfl⟩)
      c7Svc 9 "job-7" traceResult (by decide) (by decide)⟩
